import Mathlib

/-!
Shallow embedding of `src/app.py`, a Flask quiz-question server.

Modelling conventions:
* Python strings are `String`, Python lists are `List`, the global set
  `used_questions` is a `List String` with set semantics (`List.insert`).
* The mutable globals `question_cache`, `used_questions`, `current_topic`
  become an explicit `ServerState` threaded through the functions.
* The external completion service, the random shuffle and the filesystem are
  an `Env` of oracles: `completion` maps the prompt that would be sent to the
  service's reply, `sh` is the stream of permutations drawn by
  `random.shuffle` (one per call, indexed), `fsExists`/`fsRead` model
  `os.path.exists`/`read_chapter_content`.
* Exceptions become explicit: the `try/except` in `calculate_accuracy`
  catches exactly the `ZeroDivisionError` of an empty question list, so the
  embedding guards on `questions.length = 0`; the `try/except` in
  `generate_quiz_questions` maps every failing completion to `none`.
* The background `Thread(target=preload_questions, ...)` is modelled as a
  deferred task: the request handler returns a `Bool` recording whether the
  thread was spawned, and `preload_questions` is a separate state transition.
  This matches sequential execution of the handler's own code path.
* Python floats are modelled as exact rationals; `round(x, 2)` is
  round-half-to-even at two decimals (`pyRound2`).
* `Request.topic` is the query parameter after percent-decoding (`unquote`);
  an absent parameter defaults to the empty string as in the code.
-/

namespace QuizApp

/-- The pydantic model `QuizQuestion` of app.py lines 21-25. -/
structure QuizQuestion where
  question : String
  options : List String
  answer : String
  explanation : String
deriving DecidableEq, Repr

/-- One element of the decoded `response_data["questions"]` array: each of the
four fields may be missing (`none`). -/
structure RawQuestion where
  question : Option String
  options : Option (List String)
  answer : Option String
  explanation : Option String
deriving DecidableEq, Repr

/-- The three global variables of app.py lines 28-30. -/
structure ServerState where
  question_cache : List QuizQuestion
  used_questions : List String
  current_topic : String
deriving DecidableEq, Repr

/-- Outcome of one call to the completion service, as seen by
`generate_quiz_questions`: the API call raises, `json.loads` raises, the
decoded object has no usable "questions" array, or decoding succeeds with a
list of raw records. -/
inductive Completion where
  | apiError
  | badJson
  | noQuestionsField
  | ok (qs : List RawQuestion)
deriving DecidableEq, Repr

/-- True on every constructor that makes the `try` block of
`generate_quiz_questions` raise. -/
def Completion.isFailure : Completion → Bool
  | .ok _ => false
  | _ => true

/-- Which user prompt lines 92-95 build: content-grounded when `text_content`
is truthy (non-`None`, non-empty), topic-grounded otherwise. -/
inductive PromptMode where
  | contentGrounded (text : String)
  | topicGrounded (topic : Option String) (num : Nat)
deriving DecidableEq, Repr

def promptMode (text_content : Option String) (topic : Option String)
    (num_questions : Nat) : PromptMode :=
  match text_content with
  | some t => if t ≠ "" then .contentGrounded t else .topicGrounded topic num_questions
  | none => .topicGrounded topic num_questions

/-- Oracles for the outside world: service reply per prompt, shuffle
randomness, filesystem. -/
structure Env where
  completion : PromptMode → Completion
  sh : Nat → List String → List String
  fsExists : String → Bool
  fsRead : String → Option String

/-- Character-list prefix test (Python-style, used to build the substring
test). -/
def charsStartWith : List Char → List Char → Bool
  | [], _ => true
  | _ :: _, [] => false
  | a :: as, b :: bs => a = b && charsStartWith as bs

/-- Character-list containment at any position. -/
def charsContain (needle : List Char) : List Char → Bool
  | [] => needle.isEmpty
  | c :: rest => charsStartWith needle (c :: rest) || charsContain needle rest

/-- Python's `needle in hay` substring test on strings. -/
def pyIn (needle hay : String) : Bool :=
  charsContain needle.toList hay.toList

/-- Python's `s.split()`: split on whitespace runs, dropping empty pieces. -/
def pySplit (s : String) : List String :=
  (s.split Char.isWhitespace).filter (fun w => w ≠ "")

/-- Python's `s.strip()`: drop whitespace from both ends. -/
def pyStrip (s : String) : String :=
  ⟨((s.toList.dropWhile Char.isWhitespace).reverse.dropWhile Char.isWhitespace).reverse⟩

/-- The counter accumulated by the loop of app.py lines 56-60: over all
questions, the words of the lowercased question text that are longer than 3
characters and occur as substrings of the lowercased source text. -/
def relevant_count (text_content : String) (questions : List QuizQuestion) : Nat :=
  (questions.map (fun q =>
    ((pySplit q.question.toLower).filter
      (fun word => word.length > 3 && pyIn word text_content.toLower)).length)).sum

/-- Round a rational to the nearest integer, ties to even (Python `round`). -/
def roundHalfEven (x : ℚ) : ℤ :=
  if x - (⌊x⌋ : ℚ) < 1/2 then ⌊x⌋
  else if 1/2 < x - (⌊x⌋ : ℚ) then ⌊x⌋ + 1
  else if ⌊x⌋ % 2 = 0 then ⌊x⌋ else ⌊x⌋ + 1

/-- Python's `round(x, 2)`. -/
def pyRound2 (x : ℚ) : ℚ :=
  (roundHalfEven (100 * x) : ℚ) / 100

/-- app.py lines 51-66. The `try/except` catches the `ZeroDivisionError`
raised by `relevant_count / (len(questions) * 2)` when `questions` is empty
and returns `0.0`; that is the explicit guard here. (`total_words` of line 53
is computed but never used and is omitted.) -/
def calculate_accuracy (text_content : String) (questions : List QuizQuestion) : ℚ :=
  if questions.length = 0 then 0
  else
    let accuracy : ℚ :=
      min (((relevant_count text_content questions : ℚ) /
            ((questions.length : ℚ) * 2)) * 100) 100
    pyRound2 accuracy

/-- The per-record processing loop of app.py lines 111-135: skip a record
missing any of the four fields, or with `options` count ≠ 4, or whose
question text is already used, or whose answer is not among its options;
otherwise shuffle the options (`sh k`), add the question text to the used
set, and emit the question. `k` indexes the shuffle-randomness stream. -/
def processQuestions (sh : Nat → List String → List String) :
    List RawQuestion → Nat → List String → List QuizQuestion × List String
  | [], _, used => ([], used)
  | rq :: rest, k, used =>
    match rq.question, rq.options, rq.answer, rq.explanation with
    | some qt, some opts, some ans, some expl =>
      if opts.length ≠ 4 then processQuestions sh rest k used
      else if qt ∈ used then processQuestions sh rest k used
      else if ans ∉ opts then processQuestions sh rest k used
      else
        let out := processQuestions sh rest (k + 1) (used.insert qt)
        (⟨qt, sh k opts, ans, expl⟩ :: out.1, out.2)
    | _, _, _, _ => processQuestions sh rest k used

/-- app.py lines 68-146. Returns the processed questions, or `none` when the
service call, the JSON decode, or the "questions" lookup raises (the
`except` of line 144), together with the updated `used_questions` set. -/
def generate_quiz_questions (env : Env) (text_content : Option String)
    (topic : Option String) (num_questions : Nat) (used : List String) :
    Option (List QuizQuestion) × List String :=
  match env.completion (promptMode text_content topic num_questions) with
  | .apiError => (none, used)
  | .badJson => (none, used)
  | .noQuestionsField => (none, used)
  | .ok rqs =>
    let r := processQuestions env.sh rqs 0 used
    (some r.1, r.2)

/-- The file path template of app.py line 156. -/
def preload_file_path (standard subject topic : String) : String :=
  "D:\\bck\\schoolbooks\\" ++ standard ++ "\\" ++ subject ++ "\\" ++ topic ++ ".txt"

/-- The file path template of app.py line 202. -/
def next_file_path (standard subject chapter : String) : String :=
  "D:/bck/schoolbooks/" ++ standard ++ "th/" ++ subject ++ "/Chapter " ++ chapter ++ ".txt"

/-- The generation half of `preload_questions` (app.py lines 156-175), run
after the topic-switch check: content-grounded when the chapter file exists
and reads to truthy (non-`None`, non-empty) text, topic-grounded when the
file is absent; a truthy (non-`None`) questions result is appended to the
cache. `chapter` is accepted but unused, exactly as in the code. -/
def preload_generate (env : Env) (standard subject chapter topic : String)
    (st1 : ServerState) : ServerState :=
  if env.fsExists (preload_file_path standard subject topic) then
    match env.fsRead (preload_file_path standard subject topic) with
    | some chapter_content =>
      if chapter_content ≠ "" then
        match generate_quiz_questions env (some chapter_content) none 5 st1.used_questions with
        | (some questions, used1) =>
          { st1 with used_questions := used1,
                     question_cache := st1.question_cache ++ questions }
        | (none, used1) => { st1 with used_questions := used1 }
      else st1
    | none => st1
  else
    match generate_quiz_questions env none (some topic) 5 st1.used_questions with
    | (some questions, used1) =>
      { st1 with used_questions := used1,
                 question_cache := st1.question_cache ++ questions }
    | (none, used1) => { st1 with used_questions := used1 }

/-- app.py lines 148-175. Clears cache and used-set and adopts the topic when
it differs from the stored one (lines 151-154), then runs the generation
half. -/
def preload_questions (env : Env) (standard subject chapter topic : String)
    (st : ServerState) : ServerState :=
  preload_generate env standard subject chapter topic
    (if topic ≠ st.current_topic then
        { question_cache := [], used_questions := [], current_topic := topic }
      else st)

/-- The `current_index` query parameter as seen through
`int(request.args.get('current_index', 0))`: absent (defaults to 0), a valid
integer, or a string that makes `int()` raise `ValueError` with message
`msg`. -/
inductive IntParam where
  | absent
  | valid (n : Int)
  | invalid (msg : String)
deriving DecidableEq, Repr

/-- The query parameters of a `/quiz/next` request; string parameters default
to `""` when absent, and `topic` is already percent-decoded. -/
structure Request where
  topic : String
  current_index : IntParam
  standard : String
  subject : String
  chapter : String
deriving DecidableEq, Repr

/-- An HTTP reply: 200 with a questions payload, 400, or 500. -/
inductive Response where
  | ok (questions : List QuizQuestion) (should_fetch : Bool)
  | clientError (msg : String)
  | serverError (msg : String)
deriving DecidableEq, Repr

/-- The inline-generation block of app.py lines 200-212: content-grounded
when standard, subject and chapter are all non-empty and the chapter file
exists (passing the possibly-`None` file text straight through), otherwise
topic-grounded. -/
def inline_generation (env : Env) (standard subject chapter topic : String)
    (used : List String) : Option (List QuizQuestion) × List String :=
  if standard ≠ "" && subject ≠ "" && chapter ≠ "" then
    if env.fsExists (next_file_path standard subject chapter) then
      generate_quiz_questions env (env.fsRead (next_file_path standard subject chapter))
        none 5 used
    else
      generate_quiz_questions env none (some topic) 5 used
  else
    generate_quiz_questions env none (some topic) 5 used

/-- The body of the handler after `int()` succeeded with value
`current_index`. Returns the response, the new state, and whether a
background `preload_questions` thread was spawned (line 197). -/
def get_next_questions_body (env : Env) (req : Request) (current_index : Int)
    (st : ServerState) : Response × ServerState × Bool :=
  if req.topic = "" then (.clientError "Missing topic parameter", st, false)
  else if st.question_cache.length < 5 then
    match inline_generation env req.standard req.subject req.chapter (pyStrip req.topic)
        st.used_questions with
    | (none, used1) =>
      (.serverError "Failed to generate questions",
       { st with used_questions := used1 },
       (current_index % 5 == 2) || decide (st.question_cache.length < 5))
    | (some questions, used1) =>
      (.ok questions true, { st with used_questions := used1 },
       (current_index % 5 == 2) || decide (st.question_cache.length < 5))
  else
    (.ok (st.question_cache.take 5) true,
     { st with question_cache := st.question_cache.drop 5 },
     (current_index % 5 == 2) || decide (st.question_cache.length < 5))

/-- app.py lines 177-228, the `/quiz/next` handler. A `ValueError` from
`int()` is caught at line 225 and answered 400 before the topic check runs. -/
def get_next_questions (env : Env) (req : Request) (st : ServerState) :
    Response × ServerState × Bool :=
  match req.current_index with
  | .invalid msg => (.clientError msg, st, false)
  | .absent => get_next_questions_body env req 0 st
  | .valid n => get_next_questions_body env req n st

/-! Equation lemmas for the four branches of the processing loop. -/

theorem pq_skip_len (sh : Nat → List String → List String)
    (qt : String) (opts : List String) (ans expl : String)
    (rest : List RawQuestion) (k : Nat) (used : List String)
    (h : opts.length ≠ 4) :
    processQuestions sh (⟨some qt, some opts, some ans, some expl⟩ :: rest) k used =
      processQuestions sh rest k used := by
  simp only [processQuestions]
  rw [if_pos h]

theorem pq_skip_dup (sh : Nat → List String → List String)
    (qt : String) (opts : List String) (ans expl : String)
    (rest : List RawQuestion) (k : Nat) (used : List String)
    (h1 : opts.length = 4) (h : qt ∈ used) :
    processQuestions sh (⟨some qt, some opts, some ans, some expl⟩ :: rest) k used =
      processQuestions sh rest k used := by
  simp only [processQuestions]
  rw [if_neg (not_ne_iff.mpr h1), if_pos h]

theorem pq_skip_ans (sh : Nat → List String → List String)
    (qt : String) (opts : List String) (ans expl : String)
    (rest : List RawQuestion) (k : Nat) (used : List String)
    (h1 : opts.length = 4) (h2 : qt ∉ used) (h : ans ∉ opts) :
    processQuestions sh (⟨some qt, some opts, some ans, some expl⟩ :: rest) k used =
      processQuestions sh rest k used := by
  simp only [processQuestions]
  rw [if_neg (not_ne_iff.mpr h1), if_neg h2, if_pos h]

theorem pq_accept_fst (sh : Nat → List String → List String)
    (qt : String) (opts : List String) (ans expl : String)
    (rest : List RawQuestion) (k : Nat) (used : List String)
    (h1 : opts.length = 4) (h2 : qt ∉ used) (h3 : ans ∈ opts) :
    (processQuestions sh (⟨some qt, some opts, some ans, some expl⟩ :: rest) k used).1 =
      ⟨qt, sh k opts, ans, expl⟩ ::
        (processQuestions sh rest (k + 1) (used.insert qt)).1 := by
  simp only [processQuestions]
  rw [if_neg (not_ne_iff.mpr h1), if_neg h2, if_neg (not_not_intro h3)]

theorem pq_accept_snd (sh : Nat → List String → List String)
    (qt : String) (opts : List String) (ans expl : String)
    (rest : List RawQuestion) (k : Nat) (used : List String)
    (h1 : opts.length = 4) (h2 : qt ∉ used) (h3 : ans ∈ opts) :
    (processQuestions sh (⟨some qt, some opts, some ans, some expl⟩ :: rest) k used).2 =
      (processQuestions sh rest (k + 1) (used.insert qt)).2 := by
  simp only [processQuestions]
  rw [if_neg (not_ne_iff.mpr h1), if_neg h2, if_neg (not_not_intro h3)]

/-! Helper lemmas about the processing loop. -/

theorem processQuestions_out_spec (sh : Nat → List String → List String) :
    ∀ (rqs : List RawQuestion) (k : Nat) (used : List String) (q : QuizQuestion),
      q ∈ (processQuestions sh rqs k used).1 →
      ∃ j opts, q.options = sh j opts ∧ opts.length = 4 ∧ q.answer ∈ opts := by
  intro rqs
  induction rqs with
  | nil => intro k used q h; simp [processQuestions] at h
  | cons rq rest ih =>
    intro k used q h
    rcases rq with ⟨oq, oo, oa, oe⟩
    rcases oq with _ | qt <;> rcases oo with _ | opts <;>
      rcases oa with _ | ans <;> rcases oe with _ | expl <;>
      try (simp only [processQuestions] at h; exact ih _ _ _ h)
    by_cases h1 : opts.length = 4
    case neg => rw [pq_skip_len sh qt opts ans expl rest k used h1] at h; exact ih _ _ _ h
    by_cases h2 : qt ∈ used
    case pos => rw [pq_skip_dup sh qt opts ans expl rest k used h1 h2] at h; exact ih _ _ _ h
    by_cases h3 : ans ∈ opts
    case neg => rw [pq_skip_ans sh qt opts ans expl rest k used h1 h2 h3] at h; exact ih _ _ _ h
    rw [pq_accept_fst sh qt opts ans expl rest k used h1 h2 h3] at h
    rcases List.mem_cons.mp h with rfl | h
    · exact ⟨k, opts, rfl, h1, h3⟩
    · exact ih _ _ _ h

theorem processQuestions_used_mono (sh : Nat → List String → List String) :
    ∀ (rqs : List RawQuestion) (k : Nat) (used : List String) (t : String),
      t ∈ used → t ∈ (processQuestions sh rqs k used).2 := by
  intro rqs
  induction rqs with
  | nil => intro k used t ht; simpa [processQuestions] using ht
  | cons rq rest ih =>
    intro k used t ht
    rcases rq with ⟨oq, oo, oa, oe⟩
    rcases oq with _ | qt <;> rcases oo with _ | opts <;>
      rcases oa with _ | ans <;> rcases oe with _ | expl <;>
      try (simp only [processQuestions]; exact ih _ _ _ ht)
    by_cases h1 : opts.length = 4
    case neg => rw [pq_skip_len sh qt opts ans expl rest k used h1]; exact ih _ _ _ ht
    by_cases h2 : qt ∈ used
    case pos => rw [pq_skip_dup sh qt opts ans expl rest k used h1 h2]; exact ih _ _ _ ht
    by_cases h3 : ans ∈ opts
    case neg => rw [pq_skip_ans sh qt opts ans expl rest k used h1 h2 h3]; exact ih _ _ _ ht
    rw [pq_accept_snd sh qt opts ans expl rest k used h1 h2 h3]
    exact ih _ _ _ (List.mem_insert_of_mem ht)

theorem processQuestions_out_used (sh : Nat → List String → List String) :
    ∀ (rqs : List RawQuestion) (k : Nat) (used : List String) (q : QuizQuestion),
      q ∈ (processQuestions sh rqs k used).1 →
      q.question ∈ (processQuestions sh rqs k used).2 := by
  intro rqs
  induction rqs with
  | nil => intro k used q h; simp [processQuestions] at h
  | cons rq rest ih =>
    intro k used q h
    rcases rq with ⟨oq, oo, oa, oe⟩
    rcases oq with _ | qt <;> rcases oo with _ | opts <;>
      rcases oa with _ | ans <;> rcases oe with _ | expl <;>
      try (simp only [processQuestions] at h ⊢; exact ih _ _ _ h)
    by_cases h1 : opts.length = 4
    case neg =>
      rw [pq_skip_len sh qt opts ans expl rest k used h1] at h ⊢; exact ih _ _ _ h
    by_cases h2 : qt ∈ used
    case pos =>
      rw [pq_skip_dup sh qt opts ans expl rest k used h1 h2] at h ⊢; exact ih _ _ _ h
    by_cases h3 : ans ∈ opts
    case neg =>
      rw [pq_skip_ans sh qt opts ans expl rest k used h1 h2 h3] at h ⊢; exact ih _ _ _ h
    rw [pq_accept_fst sh qt opts ans expl rest k used h1 h2 h3] at h
    rw [pq_accept_snd sh qt opts ans expl rest k used h1 h2 h3]
    rcases List.mem_cons.mp h with rfl | h
    · exact processQuestions_used_mono sh rest _ _ _ (List.mem_insert_self _ _)
    · exact ih _ _ _ h

theorem processQuestions_out_fresh (sh : Nat → List String → List String) :
    ∀ (rqs : List RawQuestion) (k : Nat) (used : List String) (q : QuizQuestion),
      q ∈ (processQuestions sh rqs k used).1 →
      q.question ∉ used := by
  intro rqs
  induction rqs with
  | nil => intro k used q h; simp [processQuestions] at h
  | cons rq rest ih =>
    intro k used q h
    rcases rq with ⟨oq, oo, oa, oe⟩
    rcases oq with _ | qt <;> rcases oo with _ | opts <;>
      rcases oa with _ | ans <;> rcases oe with _ | expl <;>
      try (simp only [processQuestions] at h; exact ih _ _ _ h)
    by_cases h1 : opts.length = 4
    case neg => rw [pq_skip_len sh qt opts ans expl rest k used h1] at h; exact ih _ _ _ h
    by_cases h2 : qt ∈ used
    case pos => rw [pq_skip_dup sh qt opts ans expl rest k used h1 h2] at h; exact ih _ _ _ h
    by_cases h3 : ans ∈ opts
    case neg => rw [pq_skip_ans sh qt opts ans expl rest k used h1 h2 h3] at h; exact ih _ _ _ h
    rw [pq_accept_fst sh qt opts ans expl rest k used h1 h2 h3] at h
    rcases List.mem_cons.mp h with rfl | h
    · exact h2
    · intro hq
      exact ih _ _ _ h (List.mem_insert_of_mem hq)

theorem processQuestions_nodup (sh : Nat → List String → List String) :
    ∀ (rqs : List RawQuestion) (k : Nat) (used : List String),
      ((processQuestions sh rqs k used).1.map QuizQuestion.question).Nodup := by
  intro rqs
  induction rqs with
  | nil => intro k used; simp [processQuestions]
  | cons rq rest ih =>
    intro k used
    rcases rq with ⟨oq, oo, oa, oe⟩
    rcases oq with _ | qt <;> rcases oo with _ | opts <;>
      rcases oa with _ | ans <;> rcases oe with _ | expl <;>
      try (simp only [processQuestions]; exact ih _ _)
    by_cases h1 : opts.length = 4
    case neg => rw [pq_skip_len sh qt opts ans expl rest k used h1]; exact ih _ _
    by_cases h2 : qt ∈ used
    case pos => rw [pq_skip_dup sh qt opts ans expl rest k used h1 h2]; exact ih _ _
    by_cases h3 : ans ∈ opts
    case neg => rw [pq_skip_ans sh qt opts ans expl rest k used h1 h2 h3]; exact ih _ _
    rw [pq_accept_fst sh qt opts ans expl rest k used h1 h2 h3]
    simp only [List.map_cons, List.nodup_cons]
    refine ⟨?_, ih _ _⟩
    intro hmem
    rcases List.mem_map.mp hmem with ⟨q, hq, hqt⟩
    exact processQuestions_out_fresh sh rest _ _ q hq
      (hqt ▸ List.mem_insert_self qt used)

/-! Lemmas about `generate_quiz_questions`. -/

theorem generate_ok (env : Env) (tc tp : Option String) (n : Nat)
    (used : List String) (rqs : List RawQuestion)
    (hc : env.completion (promptMode tc tp n) = .ok rqs) :
    generate_quiz_questions env tc tp n used =
      (some (processQuestions env.sh rqs 0 used).1,
       (processQuestions env.sh rqs 0 used).2) := by
  unfold generate_quiz_questions
  rw [hc]

theorem generate_fail (env : Env) (tc tp : Option String) (n : Nat)
    (used : List String)
    (hc : (env.completion (promptMode tc tp n)).isFailure = true) :
    generate_quiz_questions env tc tp n used = (none, used) := by
  unfold generate_quiz_questions
  cases h : env.completion (promptMode tc tp n) <;>
    simp [Completion.isFailure, h] at hc ⊢

theorem generate_none_used (env : Env) (tc tp : Option String) (n : Nat)
    (used used1 : List String)
    (h : (generate_quiz_questions env tc tp n used) = (none, used1)) :
    used1 = used := by
  unfold generate_quiz_questions at h
  cases hc : env.completion (promptMode tc tp n) <;> rw [hc] at h <;>
    simp_all

theorem generate_some_eq (env : Env) (tc tp : Option String) (n : Nat)
    (used used1 : List String) (out : List QuizQuestion)
    (h : generate_quiz_questions env tc tp n used = (some out, used1)) :
    ∃ rqs, env.completion (promptMode tc tp n) = .ok rqs ∧
      out = (processQuestions env.sh rqs 0 used).1 ∧
      used1 = (processQuestions env.sh rqs 0 used).2 := by
  unfold generate_quiz_questions at h
  cases hc : env.completion (promptMode tc tp n) <;> rw [hc] at h <;>
    simp_all

theorem generate_used_mono (env : Env) (tc tp : Option String) (n : Nat)
    (used : List String) (t : String) (ht : t ∈ used) :
    t ∈ (generate_quiz_questions env tc tp n used).2 := by
  unfold generate_quiz_questions
  cases hc : env.completion (promptMode tc tp n)
  · exact ht
  · exact ht
  · exact ht
  · exact processQuestions_used_mono env.sh _ 0 used t ht

/-! Lemmas about the rounding model. -/

theorem roundHalfEven_close (x : ℚ) : |(roundHalfEven x : ℚ) - x| ≤ 1/2 := by
  have h0 : (⌊x⌋ : ℚ) ≤ x := Int.floor_le x
  have h1 : x < ⌊x⌋ + 1 := Int.lt_floor_add_one x
  unfold roundHalfEven
  split_ifs with ha hb hc <;> rw [abs_le] <;> push_cast <;>
    constructor <;> linarith

theorem pyRound2_bounds (x : ℚ) (h0 : 0 ≤ x) (h1 : x ≤ 100) :
    0 ≤ pyRound2 x ∧ pyRound2 x ≤ 100 := by
  have hc := roundHalfEven_close (100 * x)
  rw [abs_le] at hc
  have hk0 : (0 : ℤ) ≤ roundHalfEven (100 * x) := by
    by_contra hneg
    push_neg at hneg
    have hle : roundHalfEven (100 * x) ≤ -1 := by omega
    have hq : (roundHalfEven (100 * x) : ℚ) ≤ -1 := by exact_mod_cast hle
    linarith [hc.1]
  have hk1 : roundHalfEven (100 * x) ≤ 10000 := by
    by_contra hbig
    push_neg at hbig
    have hge : (10001 : ℤ) ≤ roundHalfEven (100 * x) := by omega
    have hq : (10001 : ℚ) ≤ (roundHalfEven (100 * x) : ℚ) := by exact_mod_cast hge
    linarith [hc.2]
  unfold pyRound2
  constructor
  · apply div_nonneg _ (by norm_num)
    exact_mod_cast hk0
  · rw [div_le_iff₀ (by norm_num)]
    calc (roundHalfEven (100 * x) : ℚ) ≤ 10000 := by exact_mod_cast hk1
    _ = 100 * 100 := by norm_num

/-! Evaluation lemmas for the request handler. -/

theorem gnq_eq_body (env : Env) (req : Request) (st : ServerState) (n : Int)
    (hidx : req.current_index = .valid n ∨ (req.current_index = .absent ∧ n = 0)) :
    get_next_questions env req st = get_next_questions_body env req n st := by
  rcases hidx with h | ⟨h, rfl⟩ <;> unfold get_next_questions <;> rw [h]

theorem gnq_eq_body_of_not_invalid (env : Env) (req : Request) (st : ServerState)
    (hidx : ∀ s, req.current_index ≠ .invalid s) :
    ∃ n : Int, get_next_questions env req st = get_next_questions_body env req n st := by
  cases hcase : req.current_index with
  | invalid s => exact absurd hcase (hidx s)
  | absent => exact ⟨0, by unfold get_next_questions; rw [hcase]⟩
  | valid n => exact ⟨n, by unfold get_next_questions; rw [hcase]⟩

theorem body_pop (env : Env) (req : Request) (n : Int) (st : ServerState)
    (ht : req.topic ≠ "") (h5 : ¬ st.question_cache.length < 5) :
    get_next_questions_body env req n st =
      (.ok (st.question_cache.take 5) true,
       { st with question_cache := st.question_cache.drop 5 },
       (n % 5 == 2) || decide (st.question_cache.length < 5)) := by
  unfold get_next_questions_body
  rw [if_neg ht, if_neg h5]

theorem body_inline_none (env : Env) (req : Request) (n : Int) (st : ServerState)
    (used1 : List String) (ht : req.topic ≠ "") (hlt : st.question_cache.length < 5)
    (hinl : inline_generation env req.standard req.subject req.chapter (pyStrip req.topic)
      st.used_questions = (none, used1)) :
    get_next_questions_body env req n st =
      (.serverError "Failed to generate questions",
       { st with used_questions := used1 },
       (n % 5 == 2) || decide (st.question_cache.length < 5)) := by
  unfold get_next_questions_body
  rw [if_neg ht, if_pos hlt, hinl]

theorem body_inline_some (env : Env) (req : Request) (n : Int) (st : ServerState)
    (qs : List QuizQuestion) (used1 : List String)
    (ht : req.topic ≠ "") (hlt : st.question_cache.length < 5)
    (hinl : inline_generation env req.standard req.subject req.chapter (pyStrip req.topic)
      st.used_questions = (some qs, used1)) :
    get_next_questions_body env req n st =
      (.ok qs true, { st with used_questions := used1 },
       (n % 5 == 2) || decide (st.question_cache.length < 5)) := by
  unfold get_next_questions_body
  rw [if_neg ht, if_pos hlt, hinl]

theorem body_spawn (env : Env) (req : Request) (n : Int) (st : ServerState)
    (ht : req.topic ≠ "") :
    (get_next_questions_body env req n st).2.2 =
      ((n % 5 == 2) || decide (st.question_cache.length < 5)) := by
  by_cases hlt : st.question_cache.length < 5
  · rcases hinl : inline_generation env req.standard req.subject req.chapter (pyStrip req.topic)
        st.used_questions with ⟨ores, used1⟩
    cases ores with
    | none => rw [body_inline_none env req n st used1 ht hlt hinl]
    | some qs => rw [body_inline_some env req n st qs used1 ht hlt hinl]
  · rw [body_pop env req n st ht hlt]

theorem inline_used_mono (env : Env) (standard subject chapter topic : String)
    (used : List String) (t : String) (ht : t ∈ used) :
    t ∈ (inline_generation env standard subject chapter topic used).2 := by
  unfold inline_generation
  split_ifs <;> exact generate_used_mono _ _ _ _ _ _ ht

/-! Concrete fixtures used by witnesses and counterexamples. -/

def dummyQ : QuizQuestion := ⟨"Sample question", ["a", "b", "c", "d"], "a", "because"⟩

def dummyQ2 : QuizQuestion := ⟨"Second question", ["a", "b", "c", "d"], "b", "why"⟩

def rawW : RawQuestion :=
  ⟨some "Sample question", some ["a", "b", "c", "d"], some "a", some "because"⟩

def rawW2 : RawQuestion :=
  ⟨some "Second question", some ["a", "b", "c", "d"], some "b", some "why"⟩

def envStub : Env := ⟨fun _ => .apiError, fun _ l => l, fun _ => false, fun _ => none⟩

def envOkW : Env := ⟨fun _ => .ok [rawW], fun _ l => l, fun _ => false, fun _ => none⟩

def envOkW2 : Env := ⟨fun _ => .ok [rawW, rawW2], fun _ l => l, fun _ => false, fun _ => none⟩

def stEmpty : ServerState := ⟨[], [], ""⟩

/-! Claim theorems. -/

/-- C5: for every `text_content` and question list, `calculate_accuracy`
returns a value in [0, 100] that is an exact multiple of 1/100 (two
decimals); for a nonempty list it equals `min (relevant_count /
(question_count * 2) * 100) 100` rounded to 2 decimals, and when the
internal division raises (empty list) it returns 0.0. -/
theorem calculate_accuracy_spec (text_content : String) (questions : List QuizQuestion) :
    0 ≤ calculate_accuracy text_content questions ∧
    calculate_accuracy text_content questions ≤ 100 ∧
    (∃ m : ℤ, calculate_accuracy text_content questions = (m : ℚ) / 100) ∧
    (questions ≠ [] →
      calculate_accuracy text_content questions =
        pyRound2 (min (((relevant_count text_content questions : ℚ) /
          ((questions.length : ℚ) * 2)) * 100) 100)) ∧
    (questions = [] → calculate_accuracy text_content questions = 0) := by
  by_cases hq : questions.length = 0
  · have he : questions = [] := List.length_eq_zero.mp hq
    subst he
    exact ⟨le_refl 0, by norm_num [calculate_accuracy], ⟨0, by norm_num [calculate_accuracy]⟩,
      fun h => absurd rfl h, fun _ => rfl⟩
  · have hne : questions ≠ [] := fun he => hq (by simp [he])
    have hval : calculate_accuracy text_content questions =
        pyRound2 (min (((relevant_count text_content questions : ℚ) /
          ((questions.length : ℚ) * 2)) * 100) 100) := by
      unfold calculate_accuracy
      rw [if_neg hq]
    have hx0 : 0 ≤ min (((relevant_count text_content questions : ℚ) /
        ((questions.length : ℚ) * 2)) * 100) 100 :=
      le_min (by positivity) (by norm_num)
    have hx1 : min (((relevant_count text_content questions : ℚ) /
        ((questions.length : ℚ) * 2)) * 100) 100 ≤ 100 := min_le_right _ _
    obtain ⟨b0, b1⟩ := pyRound2_bounds _ hx0 hx1
    refine ⟨hval ▸ b0, hval ▸ b1, ⟨roundHalfEven (100 * min (((relevant_count
      text_content questions : ℚ) / ((questions.length : ℚ) * 2)) * 100) 100), ?_⟩,
      fun _ => hval, fun he => absurd he hne⟩
    rw [hval]
    rfl

/-- C5 witness: the general theorem instantiated at a concrete text and a
concrete one-question list. -/
theorem calculate_accuracy_spec_witness :
    0 ≤ calculate_accuracy "the cell wall" [dummyQ] ∧
    calculate_accuracy "the cell wall" [dummyQ] =
      pyRound2 (min (((relevant_count "the cell wall" [dummyQ] : ℚ) /
        ((([dummyQ] : List QuizQuestion).length : ℚ) * 2)) * 100) 100) :=
  ⟨(calculate_accuracy_spec "the cell wall" [dummyQ]).1,
   (calculate_accuracy_spec "the cell wall" [dummyQ]).2.2.2.1 (List.cons_ne_nil _ _)⟩

/-- C9: on an empty question list the division by `len(questions) * 2 = 0`
raises, the exception is caught, and `calculate_accuracy` returns exactly
0.0, for every source text. -/
theorem calculate_accuracy_empty_zero (text_content : String) :
    calculate_accuracy text_content [] = 0 := rfl

/-- C1: whenever the completion decodes (a `some` result), every returned
question has exactly 4 options and its answer is a member of its options,
and this holds after the shuffle, for every permutation the shuffle oracle
may draw. -/
theorem generate_four_options_answer_mem (env : Env) (tc tp : Option String)
    (n : Nat) (used used1 : List String) (out : List QuizQuestion)
    (hsh : ∀ k l, (env.sh k l).Perm l)
    (hgen : generate_quiz_questions env tc tp n used = (some out, used1)) :
    ∀ q ∈ out, q.options.length = 4 ∧ q.answer ∈ q.options := by
  obtain ⟨rqs, hc, hout, hused⟩ := generate_some_eq env tc tp n used used1 out hgen
  subst hout
  intro q hq
  obtain ⟨j, opts, hopt, hlen, hans⟩ := processQuestions_out_spec env.sh rqs 0 used q hq
  have hperm := hsh j opts
  constructor
  · rw [hopt, hperm.length_eq, hlen]
  · rw [hopt]
    exact hperm.mem_iff.mpr hans

/-- C1 witness: a concrete decoded completion producing one question. -/
theorem generate_four_options_answer_mem_witness :
    dummyQ.options.length = 4 ∧ dummyQ.answer ∈ dummyQ.options :=
  generate_four_options_answer_mem envOkW none (some "t") 5 [] ["Sample question"]
    [dummyQ] (fun _ l => List.Perm.refl l) rfl dummyQ (List.mem_singleton.mpr rfl)

/-- C3: across two consecutive generations threading the used-question set
(one active topic), no question text repeats, within a batch or across the
batches; every candidate whose text was already used is discarded (returned
texts are fresh relative to the incoming set) and every accepted text ends
up in the final used set. -/
theorem no_duplicate_questions_across_batches (env1 env2 : Env)
    (tc1 tp1 tc2 tp2 : Option String) (n1 n2 : Nat)
    (used0 used1 used2 : List String) (out1 out2 : List QuizQuestion)
    (h1 : generate_quiz_questions env1 tc1 tp1 n1 used0 = (some out1, used1))
    (h2 : generate_quiz_questions env2 tc2 tp2 n2 used1 = (some out2, used2)) :
    ((out1 ++ out2).map QuizQuestion.question).Nodup ∧
    (∀ q ∈ out1 ++ out2, q.question ∉ used0) ∧
    (∀ q ∈ out1 ++ out2, q.question ∈ used2) := by
  obtain ⟨r1, hc1, ho1, hu1⟩ := generate_some_eq _ _ _ _ _ _ _ h1
  obtain ⟨r2, hc2, ho2, hu2⟩ := generate_some_eq _ _ _ _ _ _ _ h2
  subst ho1; subst hu1; subst ho2; subst hu2
  refine ⟨?_, ?_, ?_⟩
  · rw [List.map_append, List.nodup_append]
    refine ⟨processQuestions_nodup _ _ _ _, processQuestions_nodup _ _ _ _, ?_⟩
    intro t ht1 ht2
    obtain ⟨q1, hq1, rfl⟩ := List.mem_map.mp ht1
    obtain ⟨q2, hq2, he⟩ := List.mem_map.mp ht2
    exact processQuestions_out_fresh env2.sh r2 0 _ q2 hq2
      (he ▸ processQuestions_out_used env1.sh r1 0 used0 q1 hq1)
  · intro q hq
    rcases List.mem_append.mp hq with hq | hq
    · exact processQuestions_out_fresh env1.sh r1 0 used0 q hq
    · intro hq0
      exact processQuestions_out_fresh env2.sh r2 0 _ q hq
        (processQuestions_used_mono env1.sh r1 0 used0 _ hq0)
  · intro q hq
    rcases List.mem_append.mp hq with hq | hq
    · exact processQuestions_used_mono env2.sh r2 0 _ _
        (processQuestions_out_used env1.sh r1 0 used0 q hq)
    · exact processQuestions_out_used env2.sh r2 0 _ q hq

/-- C3 witness: two concrete batches, the second presenting a duplicate of a
first-batch question (which is discarded) plus a new one. -/
theorem no_duplicate_questions_across_batches_witness :
    (([dummyQ] ++ [dummyQ2]).map QuizQuestion.question).Nodup :=
  (no_duplicate_questions_across_batches envOkW envOkW2 none none (some "t") (some "t")
    5 5 [] ["Sample question"] ["Second question", "Sample question"]
    [dummyQ] [dummyQ2] rfl rfl).1

/-- C4: when the cache holds at least 5 items at request time, the handler
returns exactly the first 5 cached items in cache order, removes them, and
leaves the remaining items in their original order (take/drop split); the
used-question set is untouched. -/
theorem cache_pop_first_five (env : Env) (req : Request) (st : ServerState)
    (hidx : ∀ s, req.current_index ≠ .invalid s)
    (ht : req.topic ≠ "") (h5 : 5 ≤ st.question_cache.length) :
    (get_next_questions env req st).1 = .ok (st.question_cache.take 5) true ∧
    (get_next_questions env req st).2.1.question_cache = st.question_cache.drop 5 ∧
    st.question_cache.take 5 ++ (get_next_questions env req st).2.1.question_cache =
      st.question_cache ∧
    (get_next_questions env req st).2.1.used_questions = st.used_questions := by
  have hnot : ¬ st.question_cache.length < 5 := not_lt.mpr h5
  obtain ⟨n, he⟩ := gnq_eq_body_of_not_invalid env req st hidx
  rw [he, body_pop env req n st ht hnot]
  exact ⟨rfl, rfl, List.take_append_drop 5 st.question_cache, rfl⟩

def reqW4 : Request := ⟨"t", .valid 0, "", "", ""⟩

def stW4 : ServerState :=
  ⟨[dummyQ, dummyQ, dummyQ, dummyQ, dummyQ, dummyQ, dummyQ], [], "t"⟩

/-- C4 witness: a cache of 7 questions at index 0 — 5 served, 2 remain. -/
theorem cache_pop_first_five_witness :
    (get_next_questions envStub reqW4 stW4).1 = .ok (stW4.question_cache.take 5) true ∧
    (get_next_questions envStub reqW4 stW4).2.1.question_cache =
      stW4.question_cache.drop 5 ∧
    stW4.question_cache.take 5 ++ (get_next_questions envStub reqW4 stW4).2.1.question_cache =
      stW4.question_cache ∧
    (get_next_questions envStub reqW4 stW4).2.1.used_questions = stW4.used_questions :=
  cache_pop_first_five envStub reqW4 stW4 (fun s h => nomatch h) (by decide) (by decide)

/-- C6: a failing completion (service error, bad JSON, or missing "questions"
array) always makes `generate_quiz_questions` return the failure signal
`none` with the used set unchanged (no exception escapes, by totality of the
embedding), and on the inline path a `none` result produces the 500 response
with body error "Failed to generate questions". -/
theorem generation_failure_none_and_500 (env : Env) (req : Request) (st : ServerState)
    (hf : ∀ m, (env.completion m).isFailure = true)
    (hidx : ∀ s, req.current_index ≠ .invalid s)
    (ht : req.topic ≠ "")
    (hlt : st.question_cache.length < 5) :
    (∀ tc tp nq used, generate_quiz_questions env tc tp nq used = (none, used)) ∧
    (get_next_questions env req st).1 = .serverError "Failed to generate questions" := by
  have hgen : ∀ tc tp nq used, generate_quiz_questions env tc tp nq used = (none, used) :=
    fun tc tp nq used => generate_fail env tc tp nq used (hf _)
  refine ⟨hgen, ?_⟩
  have hinl : inline_generation env req.standard req.subject req.chapter
      (pyStrip req.topic) st.used_questions = (none, st.used_questions) := by
    unfold inline_generation
    split_ifs <;> apply hgen
  obtain ⟨n, he⟩ := gnq_eq_body_of_not_invalid env req st hidx
  rw [he, body_inline_none env req n st st.used_questions ht hlt hinl]

def reqW6 : Request := ⟨"t", .valid 0, "", "", ""⟩

/-- C6 witness: the service fails on an empty-cache request. -/
theorem generation_failure_none_and_500_witness :
    generate_quiz_questions envStub none (some "t") 5 [] = (none, []) ∧
    (get_next_questions envStub reqW6 stEmpty).1 =
      .serverError "Failed to generate questions" :=
  ⟨(generation_failure_none_and_500 envStub reqW6 stEmpty (fun _ => rfl)
      (fun s h => nomatch h) (by decide) (by decide)).1 none (some "t") 5 [],
   (generation_failure_none_and_500 envStub reqW6 stEmpty (fun _ => rfl)
      (fun s h => nomatch h) (by decide) (by decide)).2⟩

/-- C7: a request whose `current_index` parses (or is absent) but whose topic
is missing or empty is answered 400 with body error "Missing topic
parameter", with the state unchanged and no background task spawned. -/
theorem missing_topic_400 (env : Env) (req : Request) (st : ServerState)
    (hidx : ∀ s, req.current_index ≠ .invalid s)
    (ht : req.topic = "") :
    get_next_questions env req st = (.clientError "Missing topic parameter", st, false) := by
  obtain ⟨n, he⟩ := gnq_eq_body_of_not_invalid env req st hidx
  rw [he]
  unfold get_next_questions_body
  rw [if_pos ht]

def reqW7 : Request := ⟨"", .absent, "", "", ""⟩

/-- C7 witness: a request with absent index and absent/empty topic. -/
theorem missing_topic_400_witness :
    get_next_questions envStub reqW7 stEmpty =
      (.clientError "Missing topic parameter", stEmpty, false) :=
  missing_topic_400 envStub reqW7 stEmpty (fun s h => nomatch h) rfl

/-- C8: when the cache holds fewer than 5 items, the handler's own path
leaves the cache exactly as it was, and a successful inline generation is
returned directly as the 200 response. -/
theorem inline_generation_cache_untouched (env : Env) (req : Request) (st : ServerState)
    (hidx : ∀ s, req.current_index ≠ .invalid s)
    (ht : req.topic ≠ "")
    (hlt : st.question_cache.length < 5) :
    (get_next_questions env req st).2.1.question_cache = st.question_cache ∧
    (∀ out used1,
      inline_generation env req.standard req.subject req.chapter (pyStrip req.topic)
        st.used_questions = (some out, used1) →
      (get_next_questions env req st).1 = .ok out true) := by
  obtain ⟨n, he⟩ := gnq_eq_body_of_not_invalid env req st hidx
  rcases hinl : inline_generation env req.standard req.subject req.chapter
      (pyStrip req.topic) st.used_questions with ⟨ores, used1⟩
  cases ores with
  | none =>
    rw [he, body_inline_none env req n st used1 ht hlt hinl]
    refine ⟨rfl, fun out used1' hsome => ?_⟩
    exact absurd hsome (by simp)
  | some qs =>
    rw [he, body_inline_some env req n st qs used1 ht hlt hinl]
    refine ⟨rfl, fun out used1' hsome => ?_⟩
    simp only [Prod.mk.injEq, Option.some.injEq] at hsome
    rw [hsome.1]

def reqW8 : Request := ⟨"t", .valid 0, "", "", ""⟩

/-- C8 witness: empty cache, successful inline generation. -/
theorem inline_generation_cache_untouched_witness :
    (get_next_questions envOkW reqW8 stEmpty).2.1.question_cache =
      stEmpty.question_cache ∧
    (get_next_questions envOkW reqW8 stEmpty).1 = .ok [dummyQ] true :=
  ⟨(inline_generation_cache_untouched envOkW reqW8 stEmpty (fun s h => nomatch h)
      (by decide) (by decide)).1,
   (inline_generation_cache_untouched envOkW reqW8 stEmpty (fun s h => nomatch h)
      (by decide) (by decide)).2 [dummyQ] ["Sample question"] rfl⟩

def stC2 : ServerState :=
  ⟨[dummyQ, dummyQ, dummyQ, dummyQ, dummyQ, dummyQ, dummyQ], ["u"], "a"⟩

def reqC2 : Request := ⟨"b", .valid 0, "", "", ""⟩

/-- C2 counterexample: a request whose topic "b" differs from the stored
topic "a", with index 0 and a full cache, neither clears the cache or the
used-set nor adopts the new topic — no preload task is even spawned. -/
theorem topic_switch_not_cleared_counterexample :
    reqC2.topic ≠ stC2.current_topic ∧
    (get_next_questions envStub reqC2 stC2).2.1.current_topic = "a" ∧
    (get_next_questions envStub reqC2 stC2).2.1.used_questions = ["u"] ∧
    (get_next_questions envStub reqC2 stC2).2.1.question_cache ≠ [] ∧
    (get_next_questions envStub reqC2 stC2).2.2 = false := by decide

/-- C2 amended: the topic-switch clear happens only through the preload
task, which a request spawns exactly when `current_index % 5 == 2` or the
cache holds fewer than 5 items; when the spawned preload runs with a topic
differing from the stored one, it clears both cache and used-set and adopts
the new topic — it behaves exactly as if started from the empty state
carrying the new topic. -/
theorem topic_switch_clear_via_preload (env : Env) (req : Request) (st : ServerState)
    (n : Int)
    (hidx : req.current_index = .valid n ∨ (req.current_index = .absent ∧ n = 0))
    (ht : req.topic ≠ "")
    (hdiff : pyStrip req.topic ≠ st.current_topic) :
    ((get_next_questions env req st).2.2 = true ↔
      (n % 5 = 2 ∨ st.question_cache.length < 5)) ∧
    preload_questions env req.standard req.subject req.chapter (pyStrip req.topic) st =
      preload_questions env req.standard req.subject req.chapter (pyStrip req.topic)
        { question_cache := [], used_questions := [],
          current_topic := pyStrip req.topic } := by
  constructor
  · rw [gnq_eq_body env req st n hidx, body_spawn env req n st ht]
    simp [Bool.or_eq_true, beq_iff_eq, decide_eq_true_iff]
  · unfold preload_questions
    rw [if_pos hdiff, if_neg (not_ne_iff.mpr rfl)]

def stC2W : ServerState := ⟨[], ["u"], "a"⟩

def reqC2W : Request := ⟨"b", .valid 7, "", "", ""⟩

/-- C2 amended witness: index 7 (7 mod 5 = 2) with a differing topic spawns
the preload, and the preload run discards the old cache and used-set. -/
theorem topic_switch_clear_via_preload_witness :
    ((get_next_questions envStub reqC2W stC2W).2.2 = true ↔
      ((7 : Int) % 5 = 2 ∨ stC2W.question_cache.length < 5)) ∧
    preload_questions envStub reqC2W.standard reqC2W.subject reqC2W.chapter
        (pyStrip reqC2W.topic) stC2W =
      preload_questions envStub reqC2W.standard reqC2W.subject reqC2W.chapter
        (pyStrip reqC2W.topic)
        { question_cache := [], used_questions := [],
          current_topic := pyStrip reqC2W.topic } :=
  topic_switch_clear_via_preload envStub reqC2W stC2W 7 (Or.inl rfl)
    (by decide) (by decide)

/-- The invariant of C10: every cached question's text is in the used set. -/
def cacheInv (st : ServerState) : Prop :=
  ∀ q ∈ st.question_cache, q.question ∈ st.used_questions

instance (st : ServerState) : Decidable (cacheInv st) :=
  inferInstanceAs (Decidable (∀ q ∈ st.question_cache, q.question ∈ st.used_questions))

theorem cacheInv_gen_extend (cache : List QuizQuestion) (used used1 : List String)
    (env : Env) (tc tp : Option String) (nq : Nat) (qs : List QuizQuestion)
    (h : ∀ q ∈ cache, q.question ∈ used)
    (hg : generate_quiz_questions env tc tp nq used = (some qs, used1)) :
    ∀ q ∈ cache ++ qs, q.question ∈ used1 := by
  intro q hq
  rcases List.mem_append.mp hq with hq | hq
  · have hm := generate_used_mono env tc tp nq used q.question (h q hq)
    rw [hg] at hm
    exact hm
  · obtain ⟨rqs, hc, hout, hused⟩ := generate_some_eq env tc tp nq used used1 qs hg
    subst hout; subst hused
    exact processQuestions_out_used env.sh rqs 0 used q hq

theorem preload_generate_inv (env : Env) (standard subject chapter topic : String)
    (st1 : ServerState) (h : cacheInv st1) :
    cacheInv (preload_generate env standard subject chapter topic st1) := by
  unfold preload_generate
  by_cases hfs : env.fsExists (preload_file_path standard subject topic)
  · rw [if_pos hfs]
    cases hr : env.fsRead (preload_file_path standard subject topic) with
    | none => exact h
    | some c =>
      dsimp only
      by_cases hce : c = ""
      · rw [if_neg (not_not_intro hce)]
        exact h
      · rw [if_pos hce]
        rcases hg : generate_quiz_questions env (some c) none 5 st1.used_questions
          with ⟨og, used1⟩
        cases og with
        | none =>
          have := generate_none_used env (some c) none 5 st1.used_questions used1 hg
          subst this
          exact h
        | some qs =>
          exact cacheInv_gen_extend st1.question_cache st1.used_questions used1
            env (some c) none 5 qs h hg
  · rw [if_neg hfs]
    rcases hg : generate_quiz_questions env none (some topic) 5 st1.used_questions
      with ⟨og, used1⟩
    cases og with
    | none =>
      have := generate_none_used env none (some topic) 5 st1.used_questions used1 hg
      subst this
      exact h
    | some qs =>
      exact cacheInv_gen_extend st1.question_cache st1.used_questions used1
        env none (some topic) 5 qs h hg

theorem preload_inv (env : Env) (standard subject chapter topic : String)
    (st : ServerState) (h : cacheInv st) :
    cacheInv (preload_questions env standard subject chapter topic st) := by
  unfold preload_questions
  apply preload_generate_inv
  by_cases hd : topic ≠ st.current_topic
  · rw [if_pos hd]
    intro q hq
    simp at hq
  · rw [if_neg hd]
    exact h

theorem body_inv (env : Env) (req : Request) (n : Int) (st : ServerState)
    (h : cacheInv st) : cacheInv (get_next_questions_body env req n st).2.1 := by
  by_cases ht : req.topic = ""
  · unfold get_next_questions_body
    rw [if_pos ht]
    exact h
  · by_cases hlt : st.question_cache.length < 5
    · rcases hinl : inline_generation env req.standard req.subject req.chapter
        (pyStrip req.topic) st.used_questions with ⟨ores, used1⟩
      have hmono : ∀ t ∈ st.used_questions, t ∈ used1 := by
        intro t htm
        have := inline_used_mono env req.standard req.subject req.chapter
          (pyStrip req.topic) st.used_questions t htm
        rw [hinl] at this
        exact this
      cases ores with
      | none =>
        rw [body_inline_none env req n st used1 ht hlt hinl]
        intro q hq
        exact hmono q.question (h q hq)
      | some qs =>
        rw [body_inline_some env req n st qs used1 ht hlt hinl]
        intro q hq
        exact hmono q.question (h q hq)
    · rw [body_pop env req n st ht hlt]
      intro q hq
      exact h q (List.drop_subset 5 st.question_cache hq)

theorem handler_inv (env : Env) (req : Request) (st : ServerState)
    (h : cacheInv st) : cacheInv (get_next_questions env req st).2.1 := by
  cases hcase : req.current_index with
  | invalid s =>
    have he : get_next_questions env req st = (.clientError s, st, false) := by
      unfold get_next_questions
      rw [hcase]
    rw [he]
    exact h
  | absent =>
    rw [gnq_eq_body env req st 0 (Or.inr ⟨hcase, rfl⟩)]
    exact body_inv env req 0 st h
  | valid n =>
    rw [gnq_eq_body env req st n (Or.inl hcase)]
    exact body_inv env req n st h

/-- C10: if every cached question's text is in the used set, this still
holds after any request handled by the endpoint and after any run of the
preload task: generation adds a text to the used set before the question
can reach the cache, the topic switch clears both together, and serving
only drops cache entries from the front. -/
theorem cache_texts_in_used_invariant (env : Env) (req : Request)
    (standard subject chapter topic : String) (st : ServerState)
    (h : cacheInv st) :
    cacheInv (get_next_questions env req st).2.1 ∧
    cacheInv (preload_questions env standard subject chapter topic st) :=
  ⟨handler_inv env req st h, preload_inv env standard subject chapter topic st h⟩

def stW10 : ServerState := ⟨[dummyQ], ["Sample question"], "t"⟩

def reqW10 : Request := ⟨"t", .valid 2, "", "", ""⟩

/-- C10 witness: a state satisfying the invariant keeps it through both
transitions. -/
theorem cache_texts_in_used_invariant_witness :
    cacheInv (get_next_questions envStub reqW10 stW10).2.1 ∧
    cacheInv (preload_questions envStub "8" "Science" "ch" "t2" stW10) :=
  cache_texts_in_used_invariant envStub reqW10 "8" "Science" "ch" "t2" stW10
    (by decide)

end QuizApp
